import Mathlib

/-!
Shallow embedding of the boomtrade-backend service (src/main.py and its
variants).  The service is a FastAPI app mediating between a trading client
and an IBKR client-portal gateway.  We embed the handlers as pure functions
over an explicit upstream oracle; every upstream HTTP call a handler performs
is recorded in a trace so that call-count properties can be stated.
-/

namespace Boomtrade

/-- Python truthiness of an `Optional[float]` field: `None` and `0.0` are
falsy.  Used for `if order.limit_price:` / `if order.stop_price:` in
`place_stock_order` and `place_option_order` (main.py:265-268, 319-320). -/
def pyTruthy : Option ℚ → Bool
  | none => false
  | some x => x != 0

/-- Python truthiness of an `Optional[str]`: `None` and `""` are falsy
(`if credentials.account:` at main.py:91). -/
def pyTruthyStr : Option String → Bool
  | none => false
  | some s => !s.isEmpty

/-- The value a Python dict field gets when guarded by
`if p: d["k"] = p`: present exactly when truthy. -/
def pyOptField (p : Option ℚ) : Option ℚ :=
  if pyTruthy p then p else none

/-- `Credentials` request model (main.py:24-27). -/
structure Credentials where
  username : String
  password : String
  account : Option String := none
deriving DecidableEq, Repr

/-- `Order` request model for stock orders (main.py:29-36). -/
structure Order where
  symbol : String
  quantity : ℤ
  order_type : String
  side : String
  limit_price : Option ℚ := none
  stop_price : Option ℚ := none
  time_in_force : String := "DAY"
deriving DecidableEq, Repr

/-- `OptionOrder` request model (main.py:38-46).  Note: it has no
`time_in_force` field. -/
structure OptionOrder where
  symbol : String
  expiry : String
  strike : ℚ
  right : String
  quantity : ℤ
  order_type : String
  side : String
  limit_price : Option ℚ := none
deriving DecidableEq, Repr

/-- One element of the response of `GET /v1/api/portfolio/accounts`; the
handlers only read `accountId` (main.py:174, 241, 292). -/
structure Account where
  accountId : String
deriving DecidableEq, Repr

/-- One element of the response of `GET /v1/api/iserver/secdef/search`; the
handlers only read `conid` (main.py:194, 218, 253, 307, 347). -/
structure SearchResult where
  conid : ℕ
deriving DecidableEq, Repr

/-- The order payload dict built by `place_stock_order` (main.py:256-268) and
`place_option_order` (main.py:310-320).  `price` / `auxPrice` are `none` when
the dict key is absent. -/
structure OrderData where
  acctId : String
  conid : ℕ
  orderType : String
  side : String
  quantity : ℤ
  tif : String
  price : Option ℚ := none
  auxPrice : Option ℚ := none
deriving DecidableEq, Repr

/-- One upstream HTTP call (or process-spawn side effect) performed by a
handler, in order of occurrence. -/
inductive UpstreamCall where
  | authStatus
  | accounts
  | search (symbol : String)
  | snapshot (conid : ℕ)
  | positionsOf (accountId : String)
  | optionChains (conid : ℕ)
  | strikes (conid : ℕ) (expiry : String)
  | postOrder (accountId : String) (payload : OrderData)
  | spawnGateway
deriving DecidableEq, Repr

/-- Handler outcome: a successful JSON response or a raised `HTTPException`
with status code and detail string. -/
inductive HResult (α : Type) where
  | ok : α → HResult α
  | httpError : ℕ → String → HResult α
deriving DecidableEq, Repr

/-- Response bodies the embedded handlers return. -/
inductive Resp where
  | accountsList (as : List Account)
  | chainsBlob (s : String)
  | blob (s : String)
  | emptyList
deriving DecidableEq, Repr

/-- The upstream gateway, as an oracle: the responses each endpoint would
return if called.  Handlers consult it and record the calls they make. -/
structure Upstream where
  accounts : List Account
  search : String → List SearchResult
  snapshot : ℕ → String
  positionsOf : String → String
  optionChains : ℕ → String
  strikes : String → ℕ → String
  postOrder : String → OrderData → String

/-- `GET /account` (main.py:153-160). -/
def get_account (gateway_ready : Bool) (up : Upstream) :
    HResult Resp × List UpstreamCall :=
  if !gateway_ready then (.httpError 503 "Gateway not ready", [])
  else (.ok (.accountsList up.accounts), [.accounts])

/-- `GET /positions` (main.py:163-177). -/
def get_positions (gateway_ready : Bool) (up : Upstream) :
    HResult Resp × List UpstreamCall :=
  if !gateway_ready then (.httpError 503 "Gateway not ready", [])
  else
    match up.accounts with
    | [] => (.ok .emptyList, [.accounts])
    | a :: _ =>
        (.ok (.blob (up.positionsOf a.accountId)),
         [.accounts, .positionsOf a.accountId])

/-- `GET /options/search/{symbol}` (main.py:180-201). -/
def search_options (gateway_ready : Bool) (up : Upstream) (symbol : String) :
    HResult Resp × List UpstreamCall :=
  if !gateway_ready then (.httpError 503 "Gateway not ready", [])
  else
    match up.search symbol with
    | [] => (.ok .emptyList, [.search symbol])
    | r :: _ =>
        (.ok (.chainsBlob (up.optionChains r.conid)),
         [.search symbol, .optionChains r.conid])

/-- `GET /options/chain/{symbol}/{expiry}` (main.py:204-225). -/
def get_option_chain (gateway_ready : Bool) (up : Upstream)
    (symbol expiry : String) : HResult Resp × List UpstreamCall :=
  if !gateway_ready then (.httpError 503 "Gateway not ready", [])
  else
    match up.search symbol with
    | [] => (.ok .emptyList, [.search symbol])
    | r :: _ =>
        (.ok (.blob (up.strikes expiry r.conid)),
         [.search symbol, .strikes r.conid expiry])

/-- The order payload built at main.py:256-268: prices are included only when
truthy, `tif` forwards the request's `time_in_force`. -/
def stockOrderData (account_id : String) (conid : ℕ) (order : Order) :
    OrderData :=
  { acctId := account_id
    conid := conid
    orderType := order.order_type
    side := order.side
    quantity := order.quantity
    tif := order.time_in_force
    price := pyOptField order.limit_price
    auxPrice := pyOptField order.stop_price }

/-- `POST /order/stock` (main.py:228-276).  No validation of order type or
price fields is performed anywhere in the handler. -/
def place_stock_order (gateway_ready : Bool) (up : Upstream) (order : Order) :
    HResult Resp × List UpstreamCall :=
  if !gateway_ready then (.httpError 503 "Gateway not ready", [])
  else
    match up.accounts with
    | [] => (.httpError 404 "No accounts found", [.accounts])
    | a :: _ =>
        match up.search order.symbol with
        | [] =>
            (.httpError 404 "Symbol not found",
             [.accounts, .search order.symbol])
        | r :: _ =>
            let od := stockOrderData a.accountId r.conid order
            (.ok (.blob (up.postOrder a.accountId od)),
             [.accounts, .search order.symbol, .postOrder a.accountId od])

/-- The option symbol string built at main.py:295
(`f"{order.symbol} {order.expiry} {order.right} {order.strike}"`; the strike
is rendered by `toString`, standing in for Python float formatting). -/
def optionSymbol (order : OptionOrder) : String :=
  order.symbol ++ " " ++ order.expiry ++ " " ++ order.right ++ " "
    ++ toString order.strike

/-- The option order payload built at main.py:310-320: `tif` is the string
literal `"DAY"`, `auxPrice` is never set. -/
def optionOrderData (account_id : String) (conid : ℕ) (order : OptionOrder) :
    OrderData :=
  { acctId := account_id
    conid := conid
    orderType := order.order_type
    side := order.side
    quantity := order.quantity
    tif := "DAY"
    price := pyOptField order.limit_price
    auxPrice := none }

/-- `POST /order/option` (main.py:279-328). -/
def place_option_order (gateway_ready : Bool) (up : Upstream)
    (order : OptionOrder) : HResult Resp × List UpstreamCall :=
  if !gateway_ready then (.httpError 503 "Gateway not ready", [])
  else
    match up.accounts with
    | [] => (.httpError 404 "No accounts found", [.accounts])
    | a :: _ =>
        match up.search (optionSymbol order) with
        | [] =>
            (.httpError 404 "Option contract not found",
             [.accounts, .search (optionSymbol order)])
        | r :: _ =>
            let od := optionOrderData a.accountId r.conid order
            (.ok (.blob (up.postOrder a.accountId od)),
             [.accounts, .search (optionSymbol order),
              .postOrder a.accountId od])

/-- `GET /marketdata/{symbol}` (main.py:331-355): one secdef search, then a
snapshot for the first result's conid; 404 when the search is empty. -/
def get_market_data (gateway_ready : Bool) (up : Upstream) (symbol : String) :
    HResult Resp × List UpstreamCall :=
  if !gateway_ready then (.httpError 503 "Gateway not ready", [])
  else
    match up.search symbol with
    | [] => (.httpError 404 "Symbol not found", [.search symbol])
    | r :: _ =>
        (.ok (.blob (up.snapshot r.conid)),
         [.search symbol, .snapshot r.conid])

/-- Number of secdef-search (contract-resolution) calls in a trace. -/
def searchCalls (t : List UpstreamCall) : ℕ :=
  (t.filter fun c => match c with | .search _ => true | _ => false).length

/-- Number of gateway-process spawns in a trace. -/
def spawnCalls (t : List UpstreamCall) : ℕ :=
  (t.filter fun c => match c with | .spawnGateway => true | _ => false).length

/-! ### Gateway process supervisor (`POST /gateway/start`, main.py:77-150) -/

/-- What a launch of the IBeam child process writes where, extracted from
main.py:87-113: the env file written to disk, the extra environment entries,
and the command line passed to `subprocess.Popen`. -/
structure LaunchSpec where
  filesWritten : List (String × String)
  envExtra : List (String × String)
  argv : List String
deriving DecidableEq, Repr

/-- Content of `/tmp/ibeam.env` as assembled at main.py:88-92. -/
def ibeamEnvContent (c : Credentials) : String :=
  "IBEAM_ACCOUNT=" ++ c.username ++ "\nIBEAM_PASSWORD=" ++ c.password ++ "\n"
    ++ (if pyTruthyStr c.account then "IBEAM_TRADING_MODE=paper\n" else "")

/-- The side effects of the launch section of `start_gateway`
(main.py:87-113): write `/tmp/ibeam.env`, extend the environment with the
credentials, and spawn `python -m ibeam ...` with a constant argv. -/
def launchSpec (c : Credentials) : LaunchSpec :=
  { filesWritten := [("/tmp/ibeam.env", ibeamEnvContent c)]
    envExtra :=
      [("IBEAM_ACCOUNT", c.username), ("IBEAM_PASSWORD", c.password),
       ("IBEAM_GATEWAY_DIR", "/tmp/clientportal"), ("IBEAM_LOG_LEVEL", "INFO")]
    argv := ["python", "-m", "ibeam", "gateway", "start", "--config",
             "ibeam_config.yml"] }

/-- Child-process bookkeeping of the module: the set of live gateway child
processes (by pid) and the single `gateway_process` handle variable
(main.py:20). -/
structure GatewayProcs where
  procs : List ℕ
  gateway_process : Option ℕ
deriving DecidableEq, Repr

/-- Module state at import time: no child process, no handle. -/
def initialProcs : GatewayProcs := { procs := [], gateway_process := none }

/-- Effect of the `subprocess.Popen` call at main.py:108-113 on the process
bookkeeping: a new child is spawned and `gateway_process` is reassigned to
it.  The handler never terminates, kills, or waits on a previously running
process before this point. -/
def startGatewaySpawn (s : GatewayProcs) (newPid : ℕ) : GatewayProcs :=
  { procs := s.procs ++ [newPid], gateway_process := some newPid }

/-- Outcome of one probe of `GET /v1/api/iserver/auth/status`
(main.py:122-142): a 200 body with its two flags, a non-200 status, or a
raised exception (connection refused etc.). -/
inductive ProbeResult where
  | status200 (authenticated competing : Bool)
  | httpStatus (code : ℕ)
  | exc
deriving DecidableEq, Repr

/-- Result value of `start_gateway` after the spawn: the `"ready"`,
`"error"` (competing session) or `"timeout"` JSON bodies returned at
main.py:134, 136 and 146. -/
inductive StartResult where
  | ready
  | competingError
  | timeout
deriving DecidableEq, Repr

/-- `max_attempts` (main.py:119). -/
def MAX_ATTEMPTS : ℕ := 90

/-- Seconds slept between attempts (`await asyncio.sleep(2)`, main.py:144). -/
def SLEEP_SECONDS : ℕ := 2

/-- The readiness polling loop at main.py:120-146, taking the probe outcome
at each attempt index as an oracle.  Returns the result together with the
number of 2-second sleeps performed before returning (elapsed polling time is
`SLEEP_SECONDS *` that count).  On `authenticated` the loop returns
immediately; on `competing` (with `authenticated` false) it returns the error
immediately; any other outcome sleeps and retries; after `fuel` attempts the
timeout body is returned. -/
def authLoop (probe : ℕ → ProbeResult) (i : ℕ) : ℕ → StartResult × ℕ
  | 0 => (.timeout, 0)
  | fuel + 1 =>
    match probe i with
    | .status200 true _ => (.ready, 0)
    | .status200 false true => (.competingError, 0)
    | _ =>
        let r := authLoop probe (i + 1) fuel
        (r.1, r.2 + 1)

/-- The whole wait-for-ready phase of `start_gateway` (main.py:118-146). -/
def startGatewayWait (probe : ℕ → ProbeResult) : StartResult × ℕ :=
  authLoop probe 0 MAX_ATTEMPTS

/-- Effect of `start_gateway` on the `gateway_ready` flag (main.py:79,132):
the only assignment in the whole module is `gateway_ready = True` inside the
success branch of the wait loop; every other outcome leaves it unchanged. -/
def startGatewayReadyAfter (ready : Bool) (probe : ℕ → ProbeResult) : Bool :=
  if (startGatewayWait probe).1 = StartResult.ready then true else ready

/-! ### Whole-service view of the `gateway_ready` flag (main.py:21) -/

/-- The requests the service can process, each carrying the data the handler
reads.  `gatewayExit` stands for the gateway child process dying (no handler
observes it). -/
inductive Event where
  | startGateway (probe : ℕ → ProbeResult)
  | getAccount
  | getPositions
  | searchOptions (symbol : String)
  | getOptionChain (symbol expiry : String)
  | placeStock (o : Order)
  | placeOption (o : OptionOrder)
  | getMarketData (symbol : String)
  | health
  | wsMessage (symbol : Option String)
  | gatewayExit

/-- Effect of each event on the module-level `gateway_ready` flag: read from
every assignment to `gateway_ready` in main.py — there is exactly one, at
main.py:132, inside `start_gateway`'s success branch.  No other handler, and
no gateway-process exit, writes the flag. -/
def stepReady (ready : Bool) : Event → Bool
  | .startGateway probe => startGatewayReadyAfter ready probe
  | _ => ready

/-- `gateway_ready` after a sequence of events, starting from the module
initializer `gateway_ready = False` (main.py:21). -/
def readyAfter (evs : List Event) : Bool :=
  evs.foldl stepReady false

/-! ### WebSocket market-data endpoint (`/ws/marketdata`, main.py:358-378)

Each invocation of `websocket_market_data` serves a single client connection
and runs its own receive/poll loop; main.py keeps no symbol-to-subscriber
registry and no shared per-symbol poller tasks.  The live polling loops of
the server are therefore exactly the live connections; we model the server's
websocket state as the list of symbols the currently connected clients are
streaming. -/

/-- Symbols of the currently connected websocket clients, one entry per live
connection (each runs its own loop). -/
def WsConns := List String

/-- A client connects to `/ws/marketdata` and starts streaming `s`: one more
independent handler loop. -/
def wsConnect (conns : List String) (s : String) : List String :=
  conns ++ [s]

/-- A client streaming `s` disconnects: its handler loop (and only its own)
terminates, via the `except`/`finally` at main.py:375-378. -/
def wsDisconnect (conns : List String) (s : String) : List String :=
  conns.erase s

/-- Number of active polling loops for symbol `s`: one per connected client
streaming `s`, since each connection polls upstream itself
(main.py:363-373). -/
def activePollersFor (conns : List String) (s : String) : ℕ :=
  conns.count s

/-- One iteration of a connection's loop body (main.py:363-373): if the
received message carries a truthy symbol, the handler calls
`get_market_data` itself (performing that handler's upstream calls), then
sleeps 1 s. -/
def wsLoopIteration (gateway_ready : Bool) (up : Upstream)
    (msgSymbol : Option String) : List UpstreamCall :=
  match msgSymbol with
  | none => []
  | some s => if s.isEmpty then [] else (get_market_data gateway_ready up s).2

/-- Whether a probe outcome takes the `data.get("authenticated", False)`
branch at main.py:131. -/
def probeAuthenticated : ProbeResult → Bool
  | .status200 true _ => true
  | _ => false

/-- Whether a probe outcome takes the `elif data.get("competing", False)`
branch at main.py:135 (reached only when not authenticated). -/
def probeCompeting : ProbeResult → Bool
  | .status200 false true => true
  | _ => false

/-! ### Concrete instances used to exercise the embedding -/

/-- A concrete upstream: one account `ACC1`; the symbol `AAPL` resolves to
two matches (conids 265598 then 999); the option symbol
`AAPL 20260116 C 200` resolves to conid 777; every other symbol has no
match. -/
def upA : Upstream :=
  { accounts := [{ accountId := "ACC1" }]
    search := fun s =>
      if s = "AAPL" then [{ conid := 265598 }, { conid := 999 }]
      else if s = "AAPL 20260116 C 200" then [{ conid := 777 }]
      else []
    snapshot := fun c => "snapshot-" ++ toString c
    positionsOf := fun _ => "positions"
    optionChains := fun _ => "chains"
    strikes := fun _ _ => "strikes"
    postOrder := fun _ _ => "order-accepted" }

/-- A LIMIT stock order carrying no limit price (the scenario of spec §8:
`placeOrder({symbol:"AAPL", quantity:10, action:BUY, orderType:LIMIT})` with
no `limitPrice`). -/
def limitOrderNoPrice : Order :=
  { symbol := "AAPL", quantity := 10, order_type := "LMT", side := "BUY"
    limit_price := none, stop_price := none, time_in_force := "DAY" }

/-- A LIMIT option order carrying no limit price. -/
def optOrderNoPrice : OptionOrder :=
  { symbol := "AAPL", expiry := "20260116", strike := 200, right := "C"
    quantity := 1, order_type := "LMT", side := "BUY", limit_price := none }

/-- Concrete credentials for exercising `start_gateway`'s launch section. -/
def credsC4 : Credentials :=
  { username := "user1", password := "hunter2", account := none }

/-- A probe oracle whose every answer is a 200 body with
`authenticated:false, competing:true`. -/
def constCompetingProbe : ℕ → ProbeResult := fun _ => .status200 false true

/-- A probe oracle that authenticates on the very first attempt. -/
def fastProbe : ℕ → ProbeResult := fun _ => .status200 true false

/-- A probe oracle whose every attempt raises (gateway never comes up). -/
def deadProbe : ℕ → ProbeResult := fun _ => .exc

/-! ## Theorems -/

/-- C2: every gateway-dependent operation (account query, positions query,
option search/chain queries, stock and option order placement, market-data
query) with the gateway not ready fails fast with the descriptive 503
"Gateway not ready" error, performs zero upstream calls (its trace is
empty, so in particular it spawns no gateway process and never implicitly
triggers a start). -/
theorem not_ready_fails_fast (up : Upstream) (symbol expiry : String)
    (o : Order) (oo : OptionOrder) :
    get_account false up = (.httpError 503 "Gateway not ready", []) ∧
    get_positions false up = (.httpError 503 "Gateway not ready", []) ∧
    search_options false up symbol = (.httpError 503 "Gateway not ready", []) ∧
    get_option_chain false up symbol expiry
      = (.httpError 503 "Gateway not ready", []) ∧
    place_stock_order false up o = (.httpError 503 "Gateway not ready", []) ∧
    place_option_order false up oo
      = (.httpError 503 "Gateway not ready", []) ∧
    get_market_data false up symbol
      = (.httpError 503 "Gateway not ready", []) :=
  ⟨rfl, rfl, rfl, rfl, rfl, rfl, rfl⟩

/-- C6 counterexample: the service has no resolve cache.  After a successful
market-data request for `AAPL` (a successful resolve), running the same
request again performs one upstream secdef-search lookup, not zero: two
consecutive invocations perform two lookups in total. -/
theorem resolve_cache_counterexample :
    (get_market_data true upA "AAPL").1 = .ok (.blob "snapshot-265598") ∧
    searchCalls (get_market_data true upA "AAPL").2 = 1 ∧
    searchCalls ((get_market_data true upA "AAPL").2
      ++ (get_market_data true upA "AAPL").2) = 2 := by
  refine ⟨?_, ?_, ?_⟩ <;> rfl

/-- C6 amended: there is no cache and no freshness window; every market-data
request resolves its symbol with exactly one upstream lookup of its own, so a
second resolve of the same symbol performs one further upstream lookup (two
in total), never zero. -/
theorem resolve_always_hits_upstream (up : Upstream) (s : String) :
    searchCalls (get_market_data true up s).2 = 1 ∧
    searchCalls ((get_market_data true up s).2
      ++ (get_market_data true up s).2) = 2 := by
  have h1 : searchCalls (get_market_data true up s).2 = 1 := by
    cases hs : up.search s <;> simp [get_market_data, searchCalls, hs]
  refine ⟨h1, ?_⟩
  simp only [searchCalls, List.filter_append, List.length_append] at h1 ⊢
  omega

/-- C7: a resolve performs exactly one upstream lookup per invocation; an
empty upstream result list yields the instrument-not-found error (404
"Symbol not found"), and a multi-match result list deterministically uses
the first element's conid. -/
theorem resolver_single_lookup_first_match (up : Upstream) (s₁ s₂ : String)
    (r : SearchResult) (rs : List SearchResult)
    (hmiss : up.search s₁ = [])
    (hhit : up.search s₂ = r :: rs) :
    get_market_data true up s₁
      = (.httpError 404 "Symbol not found", [.search s₁]) ∧
    get_market_data true up s₂
      = (.ok (.blob (up.snapshot r.conid)), [.search s₂, .snapshot r.conid]) ∧
    searchCalls (get_market_data true up s₁).2 = 1 ∧
    searchCalls (get_market_data true up s₂).2 = 1 := by
  refine ⟨?_, ?_, ?_, ?_⟩ <;>
    simp [get_market_data, hmiss, hhit, searchCalls]

/-- Witness for C7 at the concrete upstream `upA`: `MSFT` has no match and
404s; `AAPL` has two matches and the first conid (265598) is used. -/
theorem resolver_single_lookup_first_match_witness :
    get_market_data true upA "MSFT"
      = (.httpError 404 "Symbol not found", [.search "MSFT"]) ∧
    get_market_data true upA "AAPL"
      = (.ok (.blob (upA.snapshot 265598)),
         [.search "AAPL", .snapshot 265598]) ∧
    searchCalls (get_market_data true upA "MSFT").2 = 1 ∧
    searchCalls (get_market_data true upA "AAPL").2 = 1 :=
  resolver_single_lookup_first_match upA "MSFT" "AAPL" { conid := 265598 }
    [{ conid := 999 }] rfl rfl

/-- C9: the option order payload always carries `tif = "DAY"`, a constant
independent of the request (the `OptionOrder` model has no time-in-force
field), and never carries a stop price; the stock order payload instead
forwards the request's `time_in_force`. -/
theorem option_order_tif_constant_day (acct : String) (conid : ℕ)
    (oo oo' : OptionOrder) (o : Order) :
    (optionOrderData acct conid oo).tif = "DAY" ∧
    (optionOrderData acct conid oo).tif = (optionOrderData acct conid oo').tif ∧
    (optionOrderData acct conid oo).auxPrice = none ∧
    (stockOrderData acct conid o).tif = o.time_in_force :=
  ⟨rfl, rfl, rfl, rfl⟩

/-- C10: the `gateway_ready` flag is monotone.  It is `false` after no
events (module initializer), any event sequence starting from `true` leaves
it `true` (nothing ever resets it), and a single event either leaves the
flag unchanged or is a `start_gateway` whose wait loop succeeded, in which
case the flag becomes `true` — the successful start is the only operation
that writes the flag. -/
theorem gateway_ready_monotone (evs : List Event) (b : Bool) (e : Event) :
    readyAfter [] = false ∧
    List.foldl stepReady true evs = true ∧
    (stepReady b e = b ∨
      ∃ probe, e = Event.startGateway probe ∧
        (startGatewayWait probe).1 = StartResult.ready ∧
        stepReady b e = true) := by
  have hstep : ∀ ev, stepReady true ev = true := by
    intro ev
    cases ev <;> simp [stepReady, startGatewayReadyAfter]
  refine ⟨rfl, ?_, ?_⟩
  · induction evs with
    | nil => rfl
    | cons h t ih => rw [List.foldl_cons, hstep h]; exact ih
  · cases e
    case startGateway probe =>
      by_cases hr : (startGatewayWait probe).1 = StartResult.ready
      · exact Or.inr ⟨probe, rfl, hr,
          by simp [stepReady, startGatewayReadyAfter, hr]⟩
      · exact Or.inl (by simp [stepReady, startGatewayReadyAfter, hr])
    all_goals exact Or.inl rfl

/-- C1 counterexample: a LIMIT stock order with no limit price is not
rejected.  With the gateway ready, `place_stock_order` on such an order
returns the upstream's success body, performs three upstream calls (not
zero), and the submitted payload simply lacks the price fields — no
`InvalidOrderParameters` validation error is ever raised. -/
theorem order_validation_counterexample :
    (place_stock_order true upA limitOrderNoPrice).1
      = .ok (.blob "order-accepted") ∧
    (place_stock_order true upA limitOrderNoPrice).2 =
      [.accounts, .search "AAPL",
       .postOrder "ACC1"
         { acctId := "ACC1", conid := 265598, orderType := "LMT"
           side := "BUY", quantity := 10, tif := "DAY"
           price := none, auxPrice := none }] ∧
    (place_stock_order true upA limitOrderNoPrice).2.length = 3 :=
  ⟨rfl, rfl, rfl⟩

/-- C1 amended: the handlers perform no order-parameter validation at all.
A stock order of any order type missing both prices, and an option order
missing its limit price, are still submitted: the handler performs its three
upstream calls (accounts, secdef search, order POST) and the submitted
payload simply omits the missing price fields — a missing price is neither
defaulted nor rejected with a validation error. -/
theorem no_price_validation (up : Upstream) (o : Order) (oo : OptionOrder)
    (a : Account) (as : List Account) (r r' : SearchResult)
    (rs rs' : List SearchResult)
    (hacc : up.accounts = a :: as)
    (hs : up.search o.symbol = r :: rs)
    (hs' : up.search (optionSymbol oo) = r' :: rs')
    (hlim : o.limit_price = none) (hstop : o.stop_price = none)
    (holim : oo.limit_price = none) :
    place_stock_order true up o =
      (.ok (.blob (up.postOrder a.accountId
        (stockOrderData a.accountId r.conid o))),
       [.accounts, .search o.symbol,
        .postOrder a.accountId (stockOrderData a.accountId r.conid o)]) ∧
    (stockOrderData a.accountId r.conid o).price = none ∧
    (stockOrderData a.accountId r.conid o).auxPrice = none ∧
    place_option_order true up oo =
      (.ok (.blob (up.postOrder a.accountId
        (optionOrderData a.accountId r'.conid oo))),
       [.accounts, .search (optionSymbol oo),
        .postOrder a.accountId (optionOrderData a.accountId r'.conid oo)]) ∧
    (optionOrderData a.accountId r'.conid oo).price = none := by
  refine ⟨?_, ?_, ?_, ?_, ?_⟩ <;>
    simp [place_stock_order, place_option_order, stockOrderData,
      optionOrderData, pyOptField, pyTruthy, hacc, hs, hs', hlim, hstop,
      holim]

/-- Witness for the amended C1 at the concrete inputs: the price-less LIMIT
stock and option orders against `upA` are both submitted upstream with no
price in the payload. -/
theorem no_price_validation_witness :
    place_stock_order true upA limitOrderNoPrice =
      (.ok (.blob (upA.postOrder "ACC1"
        (stockOrderData "ACC1" 265598 limitOrderNoPrice))),
       [.accounts, .search "AAPL",
        .postOrder "ACC1" (stockOrderData "ACC1" 265598 limitOrderNoPrice)]) ∧
    (stockOrderData "ACC1" 265598 limitOrderNoPrice).price = none ∧
    (stockOrderData "ACC1" 265598 limitOrderNoPrice).auxPrice = none ∧
    place_option_order true upA optOrderNoPrice =
      (.ok (.blob (upA.postOrder "ACC1"
        (optionOrderData "ACC1" 777 optOrderNoPrice))),
       [.accounts, .search (optionSymbol optOrderNoPrice),
        .postOrder "ACC1" (optionOrderData "ACC1" 777 optOrderNoPrice)]) ∧
    (optionOrderData "ACC1" 777 optOrderNoPrice).price = none :=
  no_price_validation upA limitOrderNoPrice optOrderNoPrice
    { accountId := "ACC1" } [] { conid := 265598 } { conid := 777 }
    [{ conid := 999 }] [] rfl rfl rfl rfl rfl rfl

/-- C3 counterexample: two consecutive `start_gateway` calls from the fresh
module state leave two coexisting gateway child processes (pids 101 and
202), not one; only the second is tracked by the `gateway_process`
variable. -/
theorem start_twice_leaves_two_processes :
    (startGatewaySpawn (startGatewaySpawn initialProcs 101) 202).procs
      = [101, 202] ∧
    (startGatewaySpawn (startGatewaySpawn initialProcs 101) 202).procs.length
      = 2 ∧
    (startGatewaySpawn
      (startGatewaySpawn initialProcs 101) 202).gateway_process = some 202 :=
  ⟨rfl, rfl, rfl⟩

/-- C3 amended: `start_gateway` never terminates or waits for a previously
running gateway process: its spawn appends a new child to the live set,
keeping every earlier child alive, and reassigns the tracking handle to the
new child; after two starts exactly two more processes are running than
before, with only the newest tracked. -/
theorem start_never_terminates_previous (s : GatewayProcs) (p₁ p₂ : ℕ) :
    (startGatewaySpawn s p₁).procs = s.procs ++ [p₁] ∧
    (startGatewaySpawn s p₁).gateway_process = some p₁ ∧
    (startGatewaySpawn (startGatewaySpawn s p₁) p₂).procs
      = s.procs ++ [p₁, p₂] ∧
    (startGatewaySpawn (startGatewaySpawn s p₁) p₂).procs.length
      = s.procs.length + 2 := by
  refine ⟨rfl, rfl, ?_, ?_⟩ <;> simp [startGatewaySpawn]

/-- C4 counterexample: `start_gateway` writes the credentials to durable
storage.  For the concrete credentials `user1`/`hunter2` it writes the file
`/tmp/ibeam.env` whose content contains both the username and the secret as
substrings. -/
theorem credentials_on_disk_counterexample :
    (launchSpec credsC4).filesWritten =
      [("/tmp/ibeam.env", "IBEAM_ACCOUNT=user1\nIBEAM_PASSWORD=hunter2\n")] ∧
    "hunter2".data <:+: "IBEAM_ACCOUNT=user1\nIBEAM_PASSWORD=hunter2\n".data ∧
    "user1".data <:+: "IBEAM_ACCOUNT=user1\nIBEAM_PASSWORD=hunter2\n".data ∧
    (launchSpec credsC4).filesWritten ≠ [] :=
  ⟨rfl, by decide, by decide, by decide⟩

/-- C4 amended: for every credential input the gateway child is launched
with a constant command line (credentials are never passed via argv) and the
credentials are placed in the child's environment — but `start_gateway`
also writes a file `/tmp/ibeam.env` to disk whose content contains the
username and the password, so credentials do reach durable storage. -/
theorem credentials_env_not_argv_but_on_disk (c : Credentials) :
    (launchSpec c).argv =
      ["python", "-m", "ibeam", "gateway", "start", "--config",
       "ibeam_config.yml"] ∧
    (launchSpec c).argv = (launchSpec credsC4).argv ∧
    (launchSpec c).envExtra =
      [("IBEAM_ACCOUNT", c.username), ("IBEAM_PASSWORD", c.password),
       ("IBEAM_GATEWAY_DIR", "/tmp/clientportal"),
       ("IBEAM_LOG_LEVEL", "INFO")] ∧
    (launchSpec c).filesWritten = [("/tmp/ibeam.env", ibeamEnvContent c)] ∧
    c.password.data <:+: (ibeamEnvContent c).data ∧
    c.username.data <:+: (ibeamEnvContent c).data := by
  refine ⟨rfl, rfl, rfl, rfl, ?_, ?_⟩
  · exact ⟨("IBEAM_ACCOUNT=" ++ c.username ++ "\nIBEAM_PASSWORD=").data,
      ("\n" ++ (if pyTruthyStr c.account then "IBEAM_TRADING_MODE=paper\n"
        else "")).data,
      by simp [ibeamEnvContent, String.data_append, List.append_assoc]⟩
  · exact ⟨("IBEAM_ACCOUNT=").data,
      ("\nIBEAM_PASSWORD=" ++ c.password ++ "\n"
        ++ (if pyTruthyStr c.account then "IBEAM_TRADING_MODE=paper\n"
          else "")).data,
      by simp [ibeamEnvContent, String.data_append, List.append_assoc]⟩

/-- If the current probe is neither authenticated nor competing, the loop
sleeps once and retries at the next attempt index. -/
theorem authLoop_step_fail (probe : ℕ → ProbeResult) (i fuel : ℕ)
    (h₁ : probeAuthenticated (probe i) = false)
    (h₂ : probeCompeting (probe i) = false) :
    authLoop probe i (fuel + 1) =
      ((authLoop probe (i + 1) fuel).1, (authLoop probe (i + 1) fuel).2 + 1)
    := by
  have heq : authLoop probe i (fuel + 1) =
      (match probe i with
       | .status200 true _ => (StartResult.ready, 0)
       | .status200 false true => (StartResult.competingError, 0)
       | _ => ((authLoop probe (i + 1) fuel).1,
               (authLoop probe (i + 1) fuel).2 + 1)) := rfl
  rw [heq]
  cases hp : probe i with
  | status200 a c =>
      rw [hp] at h₁ h₂
      cases a
      · cases c
        · rfl
        · simp [probeCompeting] at h₂
      · simp [probeAuthenticated] at h₁
  | httpStatus code => rfl
  | exc => rfl

/-- If the current probe is authenticated, the loop returns the ready body
at once, with no further sleeps. -/
theorem authLoop_auth_now (probe : ℕ → ProbeResult) (i fuel : ℕ)
    (h : probeAuthenticated (probe i) = true) :
    authLoop probe i (fuel + 1) = (.ready, 0) := by
  unfold authLoop
  cases hp : probe i with
  | status200 a c =>
      rw [hp] at h
      cases a
      · simp [probeAuthenticated] at h
      · rfl
  | httpStatus code => rw [hp] at h; simp [probeAuthenticated] at h
  | exc => rw [hp] at h; simp [probeAuthenticated] at h

/-- If the current probe reports a competing session (and is not
authenticated), the loop returns the competing-session error body at once. -/
theorem authLoop_competing_now (probe : ℕ → ProbeResult) (i fuel : ℕ)
    (h : probeCompeting (probe i) = true) :
    authLoop probe i (fuel + 1) = (.competingError, 0) := by
  unfold authLoop
  cases hp : probe i with
  | status200 a c =>
      rw [hp] at h
      cases a
      · cases c
        · simp [probeCompeting] at h
        · rfl
      · simp [probeCompeting] at h
  | httpStatus code => rw [hp] at h; simp [probeCompeting] at h
  | exc => rw [hp] at h; simp [probeCompeting] at h

/-- If every probe in the window is neither authenticated nor competing, the
loop exhausts its attempts, sleeping once per attempt, and returns the
timeout body. -/
theorem authLoop_all_fail (probe : ℕ → ProbeResult) (fuel : ℕ) : ∀ i,
    (∀ j, i ≤ j → j < i + fuel →
      probeAuthenticated (probe j) = false ∧ probeCompeting (probe j) = false)
    → authLoop probe i fuel = (.timeout, fuel) := by
  induction fuel with
  | zero => intro i _; rfl
  | succ n ih =>
      intro i h
      have hi := h i (Nat.le_refl i) (by omega)
      have hrec := ih (i + 1) (fun j hj₁ hj₂ => h j (by omega) (by omega))
      rw [authLoop_step_fail probe i n hi.1 hi.2, hrec]

/-- C5 counterexample: a probe reporting a competing session (and never
authenticated) makes the readiness wait return the competing-session error
body immediately — not the timeout result that the claim promises whenever
no probe reports authenticated within the budget. -/
theorem competing_session_not_timeout :
    startGatewayWait constCompetingProbe = (StartResult.competingError, 0) ∧
    (startGatewayWait constCompetingProbe).1 ≠ StartResult.timeout ∧
    probeAuthenticated (constCompetingProbe 0) = false :=
  ⟨rfl, by decide, rfl⟩

/-- C5 amended: the readiness loop probes at a fixed 2-second interval for
at most 90 attempts (180 seconds of sleeping).  A probe reporting
authenticated returns the ready result immediately with zero sleeps (within
one polling interval) and sets the ready flag; if no probe within the
budget reports authenticated *or a competing session*, the loop returns the
timeout result after 90 attempts and 90 two-second sleeps; a probe
reporting a competing session returns an error result immediately instead
of a timeout. -/
theorem start_wait_amended (fast slow comp : ℕ → ProbeResult)
    (hfast : probeAuthenticated (fast 0) = true)
    (hslow : ∀ j, j < MAX_ATTEMPTS →
      probeAuthenticated (slow j) = false ∧ probeCompeting (slow j) = false)
    (hcomp : probeCompeting (comp 0) = true) :
    startGatewayWait fast = (.ready, 0) ∧
    startGatewayReadyAfter false fast = true ∧
    startGatewayWait slow = (.timeout, MAX_ATTEMPTS) ∧
    SLEEP_SECONDS * MAX_ATTEMPTS = 180 ∧
    startGatewayWait comp = (.competingError, 0) := by
  have hM : MAX_ATTEMPTS = 89 + 1 := rfl
  have hfast' : startGatewayWait fast = (.ready, 0) := by
    rw [startGatewayWait, hM]
    exact authLoop_auth_now fast 0 89 hfast
  refine ⟨hfast', ?_, ?_, rfl, ?_⟩
  · rw [startGatewayReadyAfter, hfast']
    simp
  · rw [startGatewayWait]
    exact authLoop_all_fail slow MAX_ATTEMPTS 0
      (fun j hj₁ hj₂ => hslow j (by omega))
  · rw [startGatewayWait, hM]
    exact authLoop_competing_now comp 0 89 hcomp

/-- Witness for the amended C5: an immediately-authenticating probe yields
`ready` with zero sleeps and sets the ready flag; a never-responding probe
yields `timeout` after 90 attempts (180 seconds); an always-competing probe
yields the error body immediately. -/
theorem start_wait_amended_witness :
    startGatewayWait fastProbe = (.ready, 0) ∧
    startGatewayReadyAfter false fastProbe = true ∧
    startGatewayWait deadProbe = (.timeout, MAX_ATTEMPTS) ∧
    SLEEP_SECONDS * MAX_ATTEMPTS = 180 ∧
    startGatewayWait constCompetingProbe = (.competingError, 0) :=
  start_wait_amended fastProbe deadProbe constCompetingProbe rfl
    (fun _ _ => ⟨rfl, rfl⟩) rfl

/-- C8 counterexample: the service keeps no shared per-symbol poller.  After
two clients connect for `AAPL` there are two active polling loops for
`AAPL`, not exactly one; after both disconnect, zero remain. -/
theorem poller_per_connection_counterexample :
    activePollersFor (wsConnect (wsConnect [] "AAPL") "AAPL") "AAPL" = 2 ∧
    activePollersFor (wsConnect (wsConnect [] "AAPL") "AAPL") "AAPL" ≠ 1 ∧
    activePollersFor
      (wsDisconnect (wsDisconnect
        (wsConnect (wsConnect [] "AAPL") "AAPL") "AAPL") "AAPL") "AAPL"
      = 0 :=
  ⟨rfl, by decide, rfl⟩

/-- C8 amended: each websocket connection runs its own polling loop, so with
`n` connected subscribers of a symbol there are `n` active polling loops
for it (no deduplication into a single poller); each connect adds exactly
one loop, each disconnect removes exactly one, and zero loops remain once
no subscriber is connected — in particular a disconnected client leaves no
orphaned loop behind. -/
theorem poller_per_connection (conns : List String) (s : String) (n : ℕ) :
    activePollersFor (wsConnect conns s) s = activePollersFor conns s + 1 ∧
    activePollersFor (wsDisconnect conns s) s = activePollersFor conns s - 1 ∧
    activePollersFor (List.replicate n s) s = n ∧
    activePollersFor [] s = 0 := by
  refine ⟨?_, ?_, ?_, rfl⟩
  · simp [activePollersFor, wsConnect, List.count_append]
  · simp [activePollersFor, wsDisconnect, List.count_erase_self]
  · exact List.count_replicate_self s n

end Boomtrade
